import Mathlib

/-!
# Retail-Billing: shallow embedding of the transaction workflows

This file embeds, in Lean, the database state and the three transaction
workflows of the Retail-Billing application — invoice creation
(`POST /invoices`), invoice void (`DELETE /invoices/{id}`) and return
creation (`POST /returns`) — together with the percentage computation of
the sales-by-category and sales-by-payment-method reports, and proves
properties of them.

Modelling conventions:
* Database ids (uuid strings in the schema) are opaque identifiers compared
  only for equality; they are modelled as `Nat`.
* `Decimal` money fields and `parseFloat` results are modelled as `ℚ`;
  `Int` columns and `parseInt` results as `Int`.
* Prisma's `$transaction` is modelled by an `Except`-valued transaction
  body: on `error` the caller keeps the original state (rollback), on `ok`
  the returned state is the committed one.
* Status columns are `String`s, exactly as in the Prisma schema, and the
  JavaScript `data.status || 'DEFAULT'` idiom is modelled by `jsOrString`
  (with the empty string falsy).
* Request bodies are modelled as already-parsed records; optional fields
  that the handlers default with `x ? parse(x) : 0` are `Option` fields.
-/

namespace RetailBilling

/-- Product row (fields relevant to the workflows): `id` and `stock`. -/
structure Product where
  id : Nat
  stock : Int
  deriving DecidableEq

/-- InvoiceItem row as created by the invoice `POST` handler. -/
structure InvoiceItem where
  productId : Nat
  quantity : Int
  unitPrice : ℚ
  taxRate : ℚ
  taxAmount : ℚ
  discount : ℚ
  total : ℚ
  deriving DecidableEq

/-- Invoice row with its line items. -/
structure Invoice where
  id : Nat
  invoiceNumber : String
  customerId : Option Nat
  subtotal : ℚ
  taxAmount : ℚ
  discountAmount : ℚ
  totalAmount : ℚ
  status : String
  items : List InvoiceItem
  deriving DecidableEq

/-- StockHistory ledger entry. -/
structure StockHistoryEntry where
  productId : Nat
  quantity : Int
  type : String
  invoiceId : Option Nat
  deriving DecidableEq

/-- Customer row (loyalty fields). -/
structure Customer where
  id : Nat
  loyaltyPoints : Int
  totalPurchases : ℚ
  deriving DecidableEq

/-- LoyaltyHistory ledger entry. -/
structure LoyaltyHistoryEntry where
  customerId : Nat
  points : Int
  deriving DecidableEq

/-- ReturnItem row. -/
structure ReturnItem where
  productId : Nat
  quantity : Int
  unitPrice : ℚ
  total : ℚ
  deriving DecidableEq

/-- ReturnOrder row with its items. -/
structure ReturnOrder where
  id : Nat
  invoiceId : Nat
  totalAmount : ℚ
  status : String
  items : List ReturnItem
  deriving DecidableEq

/-- ActivityLog entry. -/
structure ActivityLogEntry where
  userId : Nat
  action : String
  deriving DecidableEq

/-- The database state: one list per table touched by the workflows. -/
structure DB where
  products : List Product
  invoices : List Invoice
  stockHistory : List StockHistoryEntry
  customers : List Customer
  loyaltyHistory : List LoyaltyHistoryEntry
  returns : List ReturnOrder
  activityLog : List ActivityLogEntry
  deriving DecidableEq

/-- One line of an invoice-creation request body. -/
structure InvoiceItemReq where
  productId : Nat
  quantity : Int
  unitPrice : ℚ
  taxRate : Option ℚ
  taxAmount : Option ℚ
  discount : Option ℚ
  total : ℚ
  deriving DecidableEq

/-- Invoice-creation request body (`POST /invoices`). -/
structure CreateInvoiceReq where
  customerId : Option Nat
  subtotal : ℚ
  taxAmount : ℚ
  discountAmount : Option ℚ
  totalAmount : ℚ
  status : Option String
  items : List InvoiceItemReq
  deriving DecidableEq

/-- One line of a return-creation request body. -/
structure ReturnItemReq where
  productId : Nat
  quantity : Int
  unitPrice : ℚ
  total : ℚ
  deriving DecidableEq

/-- Return-creation request body (`POST /returns`). -/
structure CreateReturnReq where
  invoiceId : Option Nat
  totalAmount : ℚ
  status : Option String
  items : List ReturnItemReq
  deriving DecidableEq

/-- API outcome of a handler, abstracting the HTTP responses. -/
inductive ApiResult where
  | created
  | badRequest (msg : String)
  | notFound (msg : String)
  | serverError
  deriving DecidableEq

/-- Outcome of the void (`DELETE`) handler. -/
inductive VoidResult where
  | voided
  | invoiceNotFound
  | alreadyVoided
  | hasReturns
  deriving DecidableEq

/-- JavaScript `s || d` on strings: the empty string is falsy. -/
def jsOrString : Option String → String → String
  | none, d => d
  | some s, d => if s = "" then d else s

/-- Prisma `product.update { stock: { increment: delta } }` on the products
table: adds `delta` to the stock of the product with the given id. -/
def updateProductStock (ps : List Product) (pid : Nat) (delta : Int) : List Product :=
  ps.map fun p => if p.id == pid then { p with stock := p.stock + delta } else p

/-- Prisma `customer.update` incrementing `totalPurchases` and
`loyaltyPoints` of the customer with the given id. -/
def updateCustomer (cs : List Customer) (cid : Nat) (dPurch : ℚ) (dPoints : Int) :
    List Customer :=
  cs.map fun c =>
    if c.id == cid then
      { c with totalPurchases := c.totalPurchases + dPurch,
               loyaltyPoints := c.loyaltyPoints + dPoints }
    else c

/-- Prisma `invoice.update { status }` on the invoices table. -/
def setInvoiceStatus (l : List Invoice) (iid : Nat) (st : String) : List Invoice :=
  l.map fun i => if i.id == iid then { i with status := st } else i

/-- Conversion of a request line into the stored `InvoiceItem`
(`items: { create: ... }` of the invoice `POST` handler), applying the
handler's `x ? parseFloat(x) : 0` defaults. -/
def mkInvoiceItem (it : InvoiceItemReq) : InvoiceItem :=
  { productId := it.productId, quantity := it.quantity, unitPrice := it.unitPrice,
    taxRate := it.taxRate.getD 0, taxAmount := it.taxAmount.getD 0,
    discount := it.discount.getD 0, total := it.total }

/-- The Invoice stored by the invoice `POST` handler, taken verbatim from
the submitted fields with the handler's defaults applied. -/
def mkInvoice (invId : Nat) (invNum : String) (req : CreateInvoiceReq) : Invoice :=
  { id := invId, invoiceNumber := invNum, customerId := req.customerId,
    subtotal := req.subtotal, taxAmount := req.taxAmount,
    discountAmount := req.discountAmount.getD 0, totalAmount := req.totalAmount,
    status := jsOrString req.status "PAID", items := req.items.map mkInvoiceItem }

/-- Step 2 of the invoice-creation transaction: for each request line, look
the product up (`findUnique`); throw if absent; otherwise decrement its
stock and append a `sale` StockHistory entry. -/
def invoiceItemsStep (invId : Nat) : DB → List InvoiceItemReq → Except String DB
  | db, [] => Except.ok db
  | db, it :: rest =>
    match db.products.find? (fun p => p.id == it.productId) with
    | none => Except.error "Product not found"
    | some _ =>
        invoiceItemsStep invId
          { db with
              products := updateProductStock db.products it.productId (-it.quantity),
              stockHistory := db.stockHistory ++
                [⟨it.productId, it.quantity, "sale", some invId⟩] }
          rest

/-- Step 3 of the invoice-creation transaction: if a customer id was sent
and the customer exists, increment `totalPurchases` by the submitted total
and `loyaltyPoints` by `Math.floor(totalAmount / 10)`; append a
LoyaltyHistory entry only when the points earned are positive. -/
def invoiceCustomerStep (db : DB) (cid? : Option Nat) (totalAmount : ℚ) : DB :=
  match cid? with
  | none => db
  | some cid =>
    match db.customers.find? (fun c => c.id == cid) with
    | none => db
    | some _ =>
      let pointsEarned : Int := ⌊totalAmount / 10⌋
      let db1 := { db with customers := updateCustomer db.customers cid totalAmount pointsEarned }
      if 0 < pointsEarned then
        { db1 with loyaltyHistory := db1.loyaltyHistory ++ [⟨cid, pointsEarned⟩] }
      else db1

/-- The body of the `prisma.$transaction` of the invoice `POST` handler:
create the invoice with its items from the submitted fields, run the
per-line stock step, the customer step, and append the activity log. -/
def createInvoiceTx (db : DB) (userId invId : Nat) (invNum : String)
    (req : CreateInvoiceReq) : Except String DB :=
  let db1 : DB := { db with invoices := db.invoices ++ [mkInvoice invId invNum req] }
  match invoiceItemsStep invId db1 req.items with
  | Except.error e => Except.error e
  | Except.ok db2 =>
      let db3 := invoiceCustomerStep db2 req.customerId req.totalAmount
      Except.ok { db3 with activityLog := db3.activityLog ++ [⟨userId, "CREATE_INVOICE"⟩] }

/-- The invoice `POST` handler (after the authorization check): reject an
empty item list with 400; otherwise run the transaction — on success answer
201 with the committed state, on any thrown error answer 500 with the
database rolled back to its prior state. -/
def invoicesPOST (db : DB) (userId invId : Nat) (invNum : String)
    (req : CreateInvoiceReq) : DB × ApiResult :=
  if req.items.isEmpty then
    (db, ApiResult.badRequest "Invoice must have at least one item")
  else
    match createInvoiceTx db userId invId invNum req with
    | Except.ok db2 => (db2, ApiResult.created)
    | Except.error _ => (db, ApiResult.serverError)

/-- Step 1 of the void transaction: for each invoice line, increment the
product's stock by the line quantity and append an `adjustment`
StockHistory entry referencing the invoice. -/
def restoreStockStep (iid : Nat) : DB → List InvoiceItem → DB
  | db, [] => db
  | db, it :: rest =>
      restoreStockStep iid
        { db with
            products := updateProductStock db.products it.productId it.quantity,
            stockHistory := db.stockHistory ++
              [⟨it.productId, it.quantity, "adjustment", some iid⟩] }
        rest

/-- Step 3 of the void transaction: when the invoice has a customer and
`Math.floor(totalAmount / 10) > 0`, decrement the customer's
`totalPurchases` by the invoice total and `loyaltyPoints` by the recomputed
points, and append a negative LoyaltyHistory entry; otherwise do nothing. -/
def voidCustomerStep (db : DB) (cid? : Option Nat) (totalAmount : ℚ) : DB :=
  match cid? with
  | none => db
  | some cid =>
    let pointsEarned : Int := ⌊totalAmount / 10⌋
    if 0 < pointsEarned then
      { db with
          customers := updateCustomer db.customers cid (-totalAmount) (-pointsEarned),
          loyaltyHistory := db.loyaltyHistory ++ [⟨cid, -pointsEarned⟩] }
    else db

/-- The invoice `DELETE` (void) handler: 404 when the invoice is absent,
400 when it is already `VOIDED`, 400 when a ReturnOrder references it;
otherwise, in one transaction, restore the stock of every line, set the
status to `VOIDED`, reverse the loyalty accrual, and log the activity. -/
def invoicesDELETE (db : DB) (userId iid : Nat) : DB × VoidResult :=
  match db.invoices.find? (fun i => i.id == iid) with
  | none => (db, VoidResult.invoiceNotFound)
  | some inv =>
    if inv.status = "VOIDED" then (db, VoidResult.alreadyVoided)
    else if (db.returns.find? (fun r => r.invoiceId == iid)).isSome then
      (db, VoidResult.hasReturns)
    else
      let db1 := restoreStockStep iid db inv.items
      let db2 := { db1 with invoices := setInvoiceStatus db1.invoices iid "VOIDED" }
      let db3 := voidCustomerStep db2 inv.customerId inv.totalAmount
      ({ db3 with activityLog := db3.activityLog ++ [⟨userId, "VOID_INVOICE"⟩] },
       VoidResult.voided)

/-- The per-line validation loop of the returns `POST` handler: the first
line whose product is not on the invoice, or whose quantity exceeds the
invoice line's quantity, yields a 400 message. -/
def validateReturnItems (invItems : List InvoiceItem) : List ReturnItemReq → Option String
  | [] => none
  | it :: rest =>
    match invItems.find? (fun i => i.productId == it.productId) with
    | none => some "Product not found in the invoice"
    | some invIt =>
      if invIt.quantity < it.quantity then
        some "Cannot return more than purchased quantity"
      else validateReturnItems invItems rest

/-- Whether one invoice line is fully covered by the submitted return lines
(the body of the handler's `every`): the first submitted line with the same
productId exists and has quantity `>=` the invoiced quantity. -/
def lineFullyReturned (reqItems : List ReturnItemReq) (invIt : InvoiceItem) : Bool :=
  match reqItems.find? (fun r => r.productId == invIt.productId) with
  | some r => decide (invIt.quantity ≤ r.quantity)
  | none => false

/-- The handler's `allItemsReturned` check: every invoice line is fully
covered by the submitted return lines. -/
def allItemsReturned (invItems : List InvoiceItem) (reqItems : List ReturnItemReq) : Bool :=
  invItems.all (lineFullyReturned reqItems)

/-- Stock-restore loop of the returns transaction: increment each returned
product's stock and append a `return` StockHistory entry. -/
def returnStockStep (iid : Nat) : DB → List ReturnItemReq → DB
  | db, [] => db
  | db, it :: rest =>
      returnStockStep iid
        { db with
            products := updateProductStock db.products it.productId it.quantity,
            stockHistory := db.stockHistory ++
              [⟨it.productId, it.quantity, "return", some iid⟩] }
        rest

/-- Customer step of the returns transaction: when the invoice has a
customer and `Math.floor(totalAmount / 10) > 0`, decrement the loyalty
fields and append a negative LoyaltyHistory entry; otherwise do nothing. -/
def returnCustomerStep (db : DB) (cid? : Option Nat) (totalAmount : ℚ) : DB :=
  match cid? with
  | none => db
  | some cid =>
    let pointsToDeduct : Int := ⌊totalAmount / 10⌋
    if 0 < pointsToDeduct then
      { db with
          customers := updateCustomer db.customers cid (-totalAmount) (-pointsToDeduct),
          loyaltyHistory := db.loyaltyHistory ++ [⟨cid, -pointsToDeduct⟩] }
    else db

/-- The ReturnOrder stored by the returns `POST` handler. -/
def mkReturnOrder (retId iid : Nat) (req : CreateReturnReq) (st : String) : ReturnOrder :=
  { id := retId, invoiceId := iid, totalAmount := req.totalAmount, status := st,
    items := req.items.map fun it =>
      { productId := it.productId, quantity := it.quantity,
        unitPrice := it.unitPrice, total := it.total } }

/-- The returns `POST` handler (after the authorization check): reject a
missing invoice id or an empty item list with 400; 404 when the invoice is
absent; 400 when a line fails validation; otherwise, in one transaction,
create the ReturnOrder with its items and — only when its status is
`COMPLETED` — restore stock, mark the invoice `REFUNDED` when every line
is fully returned, and deduct the customer's loyalty fields; finally log
the activity. -/
def returnsPOST (db : DB) (userId retId : Nat) (req : CreateReturnReq) : DB × ApiResult :=
  match req.invoiceId with
  | none => (db, ApiResult.badRequest "Invoice ID is required")
  | some iid =>
    if req.items.isEmpty then
      (db, ApiResult.badRequest "Return must have at least one item")
    else
      match db.invoices.find? (fun i => i.id == iid) with
      | none => (db, ApiResult.notFound "Invoice not found")
      | some invoice =>
        match validateReturnItems invoice.items req.items with
        | some msg => (db, ApiResult.badRequest msg)
        | none =>
          let st := jsOrString req.status "COMPLETED"
          let db1 := { db with returns := db.returns ++ [mkReturnOrder retId iid req st] }
          let db2 :=
            if st = "COMPLETED" then
              let dbA := returnStockStep iid db1 req.items
              let dbB :=
                if allItemsReturned invoice.items req.items then
                  { dbA with invoices := setInvoiceStatus dbA.invoices iid "REFUNDED" }
                else dbA
              returnCustomerStep dbB invoice.customerId req.totalAmount
            else db1
          ({ db2 with activityLog := db2.activityLog ++ [⟨userId, "CREATE_RETURN"⟩] },
           ApiResult.created)

/-- Fetched row feeding `getSalesByCategory`: an invoice item's total with
its product's category id and name (both nullable). -/
structure CategoryRow where
  categoryId : Option String
  categoryName : Option String
  total : ℚ
  deriving DecidableEq

/-- One group of the category map: key, display name, accumulated total. -/
structure CategoryGroup where
  key : String
  name : String
  total : ℚ
  deriving DecidableEq

/-- One output row of the category report, with its percentage. -/
structure CategoryEntry where
  key : String
  name : String
  total : ℚ
  percentage : ℚ
  deriving DecidableEq

/-- Fetched row feeding `getSalesByPaymentMethod`. -/
structure PaymentRow where
  paymentMethod : String
  totalAmount : ℚ
  deriving DecidableEq

/-- One group of the payment-method map. -/
structure PaymentGroup where
  method : String
  total : ℚ
  count : Nat
  deriving DecidableEq

/-- One output row of the payment-method report. -/
structure PaymentEntry where
  method : String
  total : ℚ
  count : Nat
  average : ℚ
  percentage : ℚ
  deriving DecidableEq

/-- The reports' guarded percentage: `total > 0 ? value / total * 100 : 0`. -/
def percentOf (total value : ℚ) : ℚ :=
  if 0 < total then value / total * 100 else 0

/-- One iteration of the category grouping loop: create the group on first
sight of the key (JavaScript records keep insertion order), then add the
item's total. -/
def addCategoryRow (m : List CategoryGroup) (row : CategoryRow) : List CategoryGroup :=
  let key := row.categoryId.getD "uncategorized"
  let name := row.categoryName.getD "Uncategorized"
  if m.any (fun g => g.key == key) then
    m.map fun g => if g.key == key then { g with total := g.total + row.total } else g
  else m ++ [{ key := key, name := name, total := row.total }]

/-- The category grouping loop, seeded with the `uncategorized` entry. -/
def groupCategorySales (rows : List CategoryRow) : List CategoryGroup :=
  rows.foldl addCategoryRow [{ key := "uncategorized", name := "Uncategorized", total := 0 }]

/-- `getSalesByCategory` on already-fetched rows: group by category, sort
by total descending (a stable sort, as JavaScript `Array.sort`), and
attach each group's percentage of the overall total; returns the report
rows and the `summary.totalSales`. -/
def getSalesByCategory (rows : List CategoryRow) : List CategoryEntry × ℚ :=
  let result := (groupCategorySales rows).insertionSort (fun a b => b.total ≤ a.total)
  let totalSales := (result.map CategoryGroup.total).sum
  (result.map fun g =>
    { key := g.key, name := g.name, total := g.total,
      percentage := percentOf totalSales g.total },
   totalSales)

/-- One iteration of the payment-method grouping loop. -/
def addPaymentRow (m : List PaymentGroup) (row : PaymentRow) : List PaymentGroup :=
  if m.any (fun g => g.method == row.paymentMethod) then
    m.map fun g =>
      if g.method == row.paymentMethod then
        { g with total := g.total + row.totalAmount, count := g.count + 1 }
      else g
  else m ++ [{ method := row.paymentMethod, total := row.totalAmount, count := 1 }]

/-- `getSalesByPaymentMethod` on already-fetched rows: group by payment
method, sort by total descending, attach averages and percentages; returns
the report rows and the `summary.totalSales`. -/
def getSalesByPaymentMethod (rows : List PaymentRow) : List PaymentEntry × ℚ :=
  let result := (rows.foldl addPaymentRow []).insertionSort (fun a b => b.total ≤ a.total)
  let totalSales := (result.map PaymentGroup.total).sum
  (result.map fun g =>
    { method := g.method, total := g.total, count := g.count,
      average := g.total / (g.count : ℚ),
      percentage := percentOf totalSales g.total },
   totalSales)

/-- Total quantity invoiced for one product across a list of invoice
lines (a line's quantity counts when its productId matches). -/
def invoicedQty (pid : Nat) : List InvoiceItem → Int
  | [] => 0
  | it :: rest => (if it.productId == pid then it.quantity else 0) + invoicedQty pid rest

/-- The products table after applying, in order, each line's stock
increment. -/
def applyStockDeltas : List Product → List InvoiceItem → List Product
  | ps, [] => ps
  | ps, it :: rest => applyStockDeltas (updateProductStock ps it.productId it.quantity) rest

/-- Whether one submitted return line fails the handler's validation:
its product is not on the invoice, or its quantity exceeds the invoice
line's quantity. -/
def lineInvalid (invItems : List InvoiceItem) (it : ReturnItemReq) : Bool :=
  match invItems.find? (fun i => i.productId == it.productId) with
  | none => true
  | some invIt => decide (invIt.quantity < it.quantity)

/-- A single-item quantity-1 invoice request for the given product, price 1. -/
def qty1Req (pid : Nat) : CreateInvoiceReq :=
  { customerId := none, subtotal := 1, taxAmount := 0, discountAmount := none,
    totalAmount := 1, status := none, items := [⟨pid, 1, 1, none, none, none, 1⟩] }

/-- The empty database. -/
def emptyDB : DB := ⟨[], [], [], [], [], [], []⟩

/-- A database holding one product, id 1, stock 1. -/
def dbStock1 : DB := { emptyDB with products := [⟨1, 1⟩] }

/-- A database holding one product, id 1, stock 0. -/
def dbStock0 : DB := { emptyDB with products := [⟨1, 0⟩] }

/-- A database holding one product, id 1, stock 5. -/
def dbStock5 : DB := { emptyDB with products := [⟨1, 5⟩] }

/-- A request for quantity 2 of product 1. -/
def reqQty2 : CreateInvoiceReq :=
  { customerId := none, subtotal := 10, taxAmount := 0, discountAmount := none,
    totalAmount := 10, status := none, items := [⟨1, 2, 5, none, none, none, 10⟩] }

/-- A request whose single line references product id 2 (absent). -/
def reqMissingProduct : CreateInvoiceReq :=
  { customerId := none, subtotal := 5, taxAmount := 0, discountAmount := none,
    totalAmount := 5, status := none, items := [⟨2, 1, 5, none, none, none, 5⟩] }

/-- A request whose client-submitted totalAmount (999) contradicts its own
line data (one line of total 10, tax 0, discount 0). -/
def reqTotalMismatch : CreateInvoiceReq :=
  { customerId := none, subtotal := 10, taxAmount := 0, discountAmount := none,
    totalAmount := 999, status := none, items := [⟨1, 1, 10, none, none, none, 10⟩] }

/-- A PAID invoice, id 1, one line: quantity 2 of product 1. -/
def invPaid : Invoice := ⟨1, "INV-1", none, 10, 0, 0, 10, "PAID", [⟨1, 2, 5, 0, 0, 0, 10⟩]⟩

/-- A database with product 1 (stock 5) and the PAID invoice `invPaid`. -/
def dbVoid : DB := { emptyDB with products := [⟨1, 5⟩], invoices := [invPaid] }

/-- `dbVoid` with a ReturnOrder attached to invoice 1. -/
def dbVoidRet : DB := { dbVoid with returns := [⟨1, 1, 10, "COMPLETED", []⟩] }

/-- A database with product 1 (stock 10) and customer 5 (0 points, 0 purchases). -/
def dbCust : DB := { emptyDB with products := [⟨1, 10⟩], customers := [⟨5, 0, 0⟩] }

/-- A request by customer 5 totalling 25. -/
def reqCust25 : CreateInvoiceReq :=
  { customerId := some 5, subtotal := 25, taxAmount := 0, discountAmount := none,
    totalAmount := 25, status := none, items := [⟨1, 1, 25, none, none, none, 25⟩] }

/-- A request by customer 5 totalling 5 (below the 10-unit loyalty step). -/
def reqCust5 : CreateInvoiceReq :=
  { customerId := some 5, subtotal := 5, taxAmount := 0, discountAmount := none,
    totalAmount := 5, status := none, items := [⟨1, 1, 5, none, none, none, 5⟩] }

/-- A PAID invoice of customer 5 totalling 25. -/
def invCust25 : Invoice := ⟨1, "INV-2", some 5, 25, 0, 0, 25, "PAID", [⟨1, 1, 25, 0, 0, 0, 25⟩]⟩

/-- A database where `invCust25` was created: customer 5 holds 2 points,
25 purchases. -/
def dbInvCust25 : DB :=
  { emptyDB with products := [⟨1, 0⟩], invoices := [invCust25], customers := [⟨5, 2, 25⟩] }

/-- A PAID invoice of customer 5 totalling 5. -/
def invCust5 : Invoice := ⟨1, "INV-3", some 5, 5, 0, 0, 5, "PAID", [⟨1, 1, 5, 0, 0, 0, 5⟩]⟩

/-- A database where `invCust5` was created: customer 5 holds 0 points,
5 purchases. -/
def dbInvCust5 : DB :=
  { emptyDB with products := [⟨1, 9⟩], invoices := [invCust5], customers := [⟨5, 0, 5⟩] }

/-- A database holding only the PAID invoice `invPaid` (for return requests). -/
def dbWithInvoice : DB := { emptyDB with invoices := [invPaid] }

/-- A return request for quantity 3 of product 1 against invoice 1 (over
the invoiced quantity 2). -/
def retReqOver : CreateReturnReq := ⟨some 1, 15, none, [⟨1, 3, 5, 15⟩]⟩

/-- A return request covering the full invoiced quantity of invoice 1. -/
def retReqFull : CreateReturnReq := ⟨some 1, 10, none, [⟨1, 2, 5, 10⟩]⟩

/-- A return request covering only part of the invoiced quantity. -/
def retReqPartial : CreateReturnReq := ⟨some 1, 5, none, [⟨1, 1, 5, 5⟩]⟩

/-- A PENDING return request for one unit of product 1 against invoice 1. -/
def retReqPending : CreateReturnReq := ⟨some 1, 5, some "PENDING", [⟨1, 1, 5, 5⟩]⟩

/-- `find?` commutes with a map that does not change the predicate's
verdict on any element. -/
theorem find?_map_pres {α : Type} (f : α → α) (p : α → Bool)
    (hp : ∀ a, p (f a) = p a) (l : List α) :
    (l.map f).find? p = (l.find? p).map f := by
  induction l with
  | nil => rfl
  | cons a t ih =>
    cases h : p a with
    | true =>
      have hfa : p (f a) = true := by rw [hp a, h]
      simp [List.find?_cons_of_pos _ h, List.find?_cons_of_pos _ hfa]
    | false =>
      have hfa : p (f a) = false := by rw [hp a, h]
      simp [List.find?_cons_of_neg, h, hfa, ih]

/-- `find?` by id after a stock update: same element, its stock bumped when
its id is the updated one. -/
theorem updateProductStock_find? (ps : List Product) (x : Nat) (d : Int) (pid : Nat) :
    (updateProductStock ps x d).find? (fun p => p.id == pid) =
      (ps.find? (fun p => p.id == pid)).map
        (fun p => if p.id == x then { p with stock := p.stock + d } else p) := by
  apply find?_map_pres
  intro a
  cases h : a.id == x <;> simp [h]

/-- `find?` by id after a status update. -/
theorem setInvoiceStatus_find? (l : List Invoice) (iid : Nat) (st : String) (x : Nat) :
    (setInvoiceStatus l iid st).find? (fun i => i.id == x) =
      (l.find? (fun i => i.id == x)).map
        (fun i => if i.id == iid then { i with status := st } else i) := by
  apply find?_map_pres
  intro a
  cases h : a.id == iid <;> simp [h]

/-- `find?` by id after a customer update. -/
theorem updateCustomer_find? (cs : List Customer) (cid : Nat) (dPurch : ℚ) (dPoints : Int)
    (x : Nat) :
    (updateCustomer cs cid dPurch dPoints).find? (fun c => c.id == x) =
      (cs.find? (fun c => c.id == x)).map
        (fun c => if c.id == cid then
          { c with totalPurchases := c.totalPurchases + dPurch,
                   loyaltyPoints := c.loyaltyPoints + dPoints } else c) := by
  apply find?_map_pres
  intro a
  cases h : a.id == cid <;> simp [h]

/-- `find?` by id through an iterated stock update: the found product's
stock grows by the total quantity of the matching lines. -/
theorem applyStockDeltas_find? (pid : Nat) :
    ∀ (items : List InvoiceItem) (ps : List Product),
      (applyStockDeltas ps items).find? (fun p => p.id == pid) =
        (ps.find? (fun p => p.id == pid)).map
          (fun p => { p with stock := p.stock + invoicedQty pid items }) := by
  intro items
  induction items with
  | nil =>
    intro ps
    cases h : ps.find? (fun p => p.id == pid) <;>
      simp [applyStockDeltas, invoicedQty, h]
  | cons it rest ih =>
    intro ps
    rw [applyStockDeltas, ih, updateProductStock_find?]
    cases h : ps.find? (fun p => p.id == pid) with
    | none => simp
    | some p =>
      have hid : p.id = pid := by
        have h2 := List.find?_some h
        simpa using h2
      cases hx : it.productId == pid with
      | true =>
        have hx2 : it.productId = pid := by simpa using hx
        simp [invoicedQty, hid, hx, hx2, Option.map_some, add_assoc]
      | false =>
        have hx2 : ¬ it.productId = pid := by simpa using hx
        have hne2 : ¬ p.id = it.productId := by
          rw [hid]
          intro hc
          exact hx2 hc.symm
        simp [invoicedQty, hx, hne2]

/-- The stock-restore loop of the void transaction changes only the
products and stockHistory tables, and its product effect is
`applyStockDeltas`. -/
theorem restoreStockStep_components (iid : Nat) :
    ∀ (items : List InvoiceItem) (db : DB),
      (restoreStockStep iid db items).products = applyStockDeltas db.products items ∧
      (restoreStockStep iid db items).invoices = db.invoices ∧
      (restoreStockStep iid db items).customers = db.customers ∧
      (restoreStockStep iid db items).loyaltyHistory = db.loyaltyHistory ∧
      (restoreStockStep iid db items).returns = db.returns ∧
      (restoreStockStep iid db items).activityLog = db.activityLog := by
  intro items
  induction items with
  | nil =>
    intro db
    simp [restoreStockStep, applyStockDeltas]
  | cons it rest ih =>
    intro db
    have h := ih { db with
      products := updateProductStock db.products it.productId it.quantity,
      stockHistory := db.stockHistory ++
        [⟨it.productId, it.quantity, "adjustment", some iid⟩] }
    simpa [restoreStockStep, applyStockDeltas] using h

/-- The stock-restore loop of the returns transaction changes only the
products and stockHistory tables. -/
theorem returnStockStep_components (iid : Nat) :
    ∀ (items : List ReturnItemReq) (db : DB),
      (returnStockStep iid db items).invoices = db.invoices ∧
      (returnStockStep iid db items).customers = db.customers ∧
      (returnStockStep iid db items).loyaltyHistory = db.loyaltyHistory ∧
      (returnStockStep iid db items).returns = db.returns ∧
      (returnStockStep iid db items).activityLog = db.activityLog := by
  intro items
  induction items with
  | nil =>
    intro db
    simp [returnStockStep]
  | cons it rest ih =>
    intro db
    have h := ih { db with
      products := updateProductStock db.products it.productId it.quantity,
      stockHistory := db.stockHistory ++
        [⟨it.productId, it.quantity, "return", some iid⟩] }
    simpa [returnStockStep] using h

/-- The customer step of the returns transaction changes only the
customers and loyaltyHistory tables. -/
theorem returnCustomerStep_components (db : DB) (cid? : Option Nat) (t : ℚ) :
    (returnCustomerStep db cid? t).invoices = db.invoices ∧
    (returnCustomerStep db cid? t).products = db.products ∧
    (returnCustomerStep db cid? t).stockHistory = db.stockHistory ∧
    (returnCustomerStep db cid? t).returns = db.returns ∧
    (returnCustomerStep db cid? t).activityLog = db.activityLog := by
  cases cid? with
  | none => simp [returnCustomerStep]
  | some cid =>
    by_cases h : 0 < (⌊t / 10⌋ : Int) <;> simp [returnCustomerStep, h]

/-- The customer step of the void transaction changes only the customers
and loyaltyHistory tables. -/
theorem voidCustomerStep_components (db : DB) (cid? : Option Nat) (t : ℚ) :
    (voidCustomerStep db cid? t).invoices = db.invoices ∧
    (voidCustomerStep db cid? t).products = db.products ∧
    (voidCustomerStep db cid? t).stockHistory = db.stockHistory ∧
    (voidCustomerStep db cid? t).returns = db.returns ∧
    (voidCustomerStep db cid? t).activityLog = db.activityLog := by
  cases cid? with
  | none => simp [voidCustomerStep]
  | some cid =>
    by_cases h : 0 < (⌊t / 10⌋ : Int) <;> simp [voidCustomerStep, h]

/-- The customer step of the invoice-creation transaction changes only the
customers and loyaltyHistory tables. -/
theorem invoiceCustomerStep_components (db : DB) (cid? : Option Nat) (t : ℚ) :
    (invoiceCustomerStep db cid? t).invoices = db.invoices ∧
    (invoiceCustomerStep db cid? t).products = db.products ∧
    (invoiceCustomerStep db cid? t).stockHistory = db.stockHistory ∧
    (invoiceCustomerStep db cid? t).returns = db.returns ∧
    (invoiceCustomerStep db cid? t).activityLog = db.activityLog := by
  cases cid? with
  | none => simp [invoiceCustomerStep]
  | some cid =>
    cases h : db.customers.find? (fun c => c.id == cid) with
    | none => simp [invoiceCustomerStep, h]
    | some c =>
      by_cases h2 : 0 < (⌊t / 10⌋ : Int) <;> simp [invoiceCustomerStep, h, h2]

/-- When a customer id is attached and the customer exists, the customer
step of invoice creation applies exactly the `+totalAmount`,
`+⌊totalAmount / 10⌋` update. -/
theorem invoiceCustomerStep_customers_found {db : DB} {cid : Nat} {c : Customer} (t : ℚ)
    (h : db.customers.find? (fun x => x.id == cid) = some c) :
    (invoiceCustomerStep db (some cid) t).customers =
      updateCustomer db.customers cid t ⌊t / 10⌋ := by
  by_cases h2 : 0 < (⌊t / 10⌋ : Int) <;> simp [invoiceCustomerStep, h, h2]

/-- When the per-line step of invoice creation succeeds it changes only
the products and stockHistory tables. -/
theorem invoiceItemsStep_ok_components (invId : Nat) :
    ∀ (items : List InvoiceItemReq) (db db2 : DB),
      invoiceItemsStep invId db items = Except.ok db2 →
      db2.invoices = db.invoices ∧ db2.customers = db.customers ∧
      db2.loyaltyHistory = db.loyaltyHistory ∧ db2.returns = db.returns ∧
      db2.activityLog = db.activityLog := by
  intro items
  induction items with
  | nil =>
    intro db db2 h
    cases h
    simp [invoiceItemsStep]
  | cons it rest ih =>
    intro db db2 h
    cases hf : db.products.find? (fun p => p.id == it.productId) with
    | none => simp [invoiceItemsStep, hf] at h
    | some p =>
      simp only [invoiceItemsStep, hf] at h
      have h2 := ih
        { db with
            products := updateProductStock db.products it.productId (-it.quantity),
            stockHistory := db.stockHistory ++
              [⟨it.productId, it.quantity, "sale", some invId⟩] }
        db2 h
      simpa using h2

/-- When some request line references a product id absent from the
products table, the per-line step of invoice creation throws. -/
theorem invoiceItemsStep_error (invId : Nat) :
    ∀ (items : List InvoiceItemReq) (db : DB),
      (∃ it ∈ items, db.products.find? (fun p => p.id == it.productId) = none) →
      ∃ e, invoiceItemsStep invId db items = Except.error e := by
  intro items
  induction items with
  | nil =>
    intro db h
    rcases h with ⟨it, hmem, _⟩
    cases hmem
  | cons it rest ih =>
    intro db h
    cases hf : db.products.find? (fun p => p.id == it.productId) with
    | none => exact ⟨"Product not found", by rw [invoiceItemsStep, hf]⟩
    | some p =>
      rcases h with ⟨w, hmem, hw⟩
      rcases List.mem_cons.mp hmem with heq | hmem2
      · subst heq
        rw [hf] at hw
        cases hw
      · have hw2 : (updateProductStock db.products it.productId (-it.quantity)).find?
            (fun q => q.id == w.productId) = none := by
          rw [updateProductStock_find?, hw]
          rfl
        have h3 := ih
          { db with
              products := updateProductStock db.products it.productId (-it.quantity),
              stockHistory := db.stockHistory ++
                [⟨it.productId, it.quantity, "sale", some invId⟩] }
          ⟨w, hmem2, hw2⟩
        rw [invoiceItemsStep, hf]
        exact h3

/-- Products after the void transaction's stock-restore loop. -/
theorem restoreStockStep_products (iid : Nat) (items : List InvoiceItem) (db : DB) :
    (restoreStockStep iid db items).products = applyStockDeltas db.products items :=
  (restoreStockStep_components iid items db).1

/-- Invoices are untouched by the void transaction's stock-restore loop. -/
theorem restoreStockStep_invoices (iid : Nat) (items : List InvoiceItem) (db : DB) :
    (restoreStockStep iid db items).invoices = db.invoices :=
  (restoreStockStep_components iid items db).2.1

/-- Customers are untouched by the void transaction's stock-restore loop. -/
theorem restoreStockStep_customers (iid : Nat) (items : List InvoiceItem) (db : DB) :
    (restoreStockStep iid db items).customers = db.customers :=
  (restoreStockStep_components iid items db).2.2.1

/-- Invoices are untouched by the returns transaction's stock-restore loop. -/
theorem returnStockStep_invoices (iid : Nat) (items : List ReturnItemReq) (db : DB) :
    (returnStockStep iid db items).invoices = db.invoices :=
  (returnStockStep_components iid items db).1

/-- Invoices are untouched by the returns transaction's customer step. -/
theorem returnCustomerStep_invoices (db : DB) (cid? : Option Nat) (t : ℚ) :
    (returnCustomerStep db cid? t).invoices = db.invoices :=
  (returnCustomerStep_components db cid? t).1

/-- Invoices are untouched by the void transaction's customer step. -/
theorem voidCustomerStep_invoices (db : DB) (cid? : Option Nat) (t : ℚ) :
    (voidCustomerStep db cid? t).invoices = db.invoices :=
  (voidCustomerStep_components db cid? t).1

/-- Products are untouched by the void transaction's customer step. -/
theorem voidCustomerStep_products (db : DB) (cid? : Option Nat) (t : ℚ) :
    (voidCustomerStep db cid? t).products = db.products :=
  (voidCustomerStep_components db cid? t).2.1

/-- Invoices are untouched by the invoice-creation customer step. -/
theorem invoiceCustomerStep_invoices (db : DB) (cid? : Option Nat) (t : ℚ) :
    (invoiceCustomerStep db cid? t).invoices = db.invoices :=
  (invoiceCustomerStep_components db cid? t).1

/-- Products are untouched by the invoice-creation customer step. -/
theorem invoiceCustomerStep_products (db : DB) (cid? : Option Nat) (t : ℚ) :
    (invoiceCustomerStep db cid? t).products = db.products :=
  (invoiceCustomerStep_components db cid? t).2.1

/-- A created (201) response means the transaction body committed, and the
returned state is the committed one. -/
theorem invoicesPOST_created {db : DB} {u n : Nat} {s : String} {req : CreateInvoiceReq}
    (h : (invoicesPOST db u n s req).2 = ApiResult.created) :
    createInvoiceTx db u n s req = Except.ok (invoicesPOST db u n s req).1 := by
  unfold invoicesPOST at h ⊢
  by_cases he : req.items.isEmpty
  · simp [he] at h
  · simp only [he, Bool.false_eq_true, if_neg, ite_false] at h ⊢
    cases htx : createInvoiceTx db u n s req with
    | ok d => simp [htx]
    | error e => simp [htx] at h

/-- Decomposition of a committed invoice-creation transaction: the per-line
step succeeded on the state holding the new invoice, and the committed
state is the customer step's output with the activity-log entry appended. -/
theorem createInvoiceTx_ok_parts {db : DB} {u n : Nat} {s : String}
    {req : CreateInvoiceReq} {db2 : DB}
    (h : createInvoiceTx db u n s req = Except.ok db2) :
    ∃ dbi,
      invoiceItemsStep n { db with invoices := db.invoices ++ [mkInvoice n s req] }
        req.items = Except.ok dbi ∧
      db2 = { invoiceCustomerStep dbi req.customerId req.totalAmount with
              activityLog :=
                (invoiceCustomerStep dbi req.customerId req.totalAmount).activityLog
                  ++ [⟨u, "CREATE_INVOICE"⟩] } := by
  simp only [createInvoiceTx] at h
  cases hstep : invoiceItemsStep n
      { db with invoices := db.invoices ++ [mkInvoice n s req] } req.items with
  | error e =>
    simp only [hstep] at h
    cases h
  | ok dbi =>
    simp only [hstep, Except.ok.injEq] at h
    refine ⟨dbi, rfl, ?_⟩
    exact h.symm

/-- Full evaluation of the invoice `POST` on a single-line request with no
customer, when the product exists: success, invoice appended, stock
decremented by the line quantity (with no check against the current
stock), one `sale` StockHistory entry, one activity-log entry. -/
theorem invoicesPOST_single_item {db : DB} {u n : Nat} {s : String}
    {req : CreateInvoiceReq} {pid : Nat} {q : Int} {price itTot : ℚ}
    {itTaxRate itTax itDisc : Option ℚ} {p : Product}
    (hitems : req.items = [⟨pid, q, price, itTaxRate, itTax, itDisc, itTot⟩])
    (hcid : req.customerId = none)
    (hp : db.products.find? (fun x => x.id == pid) = some p) :
    invoicesPOST db u n s req =
      ({ db with
          invoices := db.invoices ++ [mkInvoice n s req],
          products := updateProductStock db.products pid (-q),
          stockHistory := db.stockHistory ++ [⟨pid, q, "sale", some n⟩],
          activityLog := db.activityLog ++ [⟨u, "CREATE_INVOICE"⟩] },
        ApiResult.created) := by
  simp [invoicesPOST, createInvoiceTx, invoiceItemsStep, hitems, hcid, hp,
    invoiceCustomerStep]

/-- When some submitted line is invalid, the validation loop of the
returns handler reports an error message. -/
theorem validateReturnItems_some (invItems : List InvoiceItem) :
    ∀ items : List ReturnItemReq,
      (∃ it ∈ items, lineInvalid invItems it = true) →
      ∃ msg, validateReturnItems invItems items = some msg := by
  intro items
  induction items with
  | nil =>
    intro h
    rcases h with ⟨it, hmem, _⟩
    cases hmem
  | cons it rest ih =>
    intro h
    cases hf : invItems.find? (fun i => i.productId == it.productId) with
    | none => exact ⟨"Product not found in the invoice", by rw [validateReturnItems, hf]⟩
    | some invIt =>
      by_cases hq : invIt.quantity < it.quantity
      · exact ⟨"Cannot return more than purchased quantity",
          by rw [validateReturnItems, hf]; simp [hq]⟩
      · rcases h with ⟨w, hmem, hw⟩
        rcases List.mem_cons.mp hmem with heq | hmem2
        · subst heq
          unfold lineInvalid at hw
          rw [hf] at hw
          simp [hq] at hw
        · obtain ⟨msg, hv⟩ := ih ⟨w, hmem2, hw⟩
          exact ⟨msg, by rw [validateReturnItems, hf]; simp [hq, hv]⟩

/-- Voiding an invoice whose current status is VOIDED answers
`alreadyVoided` and leaves the database untouched. -/
theorem invoicesDELETE_alreadyVoided {db : DB} {u iid : Nat} {inv : Invoice}
    (hfind : db.invoices.find? (fun i => i.id == iid) = some inv)
    (hst : inv.status = "VOIDED") :
    invoicesDELETE db u iid = (db, VoidResult.alreadyVoided) := by
  simp [invoicesDELETE, hfind, hst]

/-- Summing the guarded percentages of a list against a positive total. -/
theorem sum_map_percentOf (l : List ℚ) (T : ℚ) (h : 0 < T) :
    (l.map (percentOf T)).sum = l.sum / T * 100 := by
  induction l with
  | nil => simp
  | cons a t ih =>
    simp only [List.map_cons, List.sum_cons, ih, percentOf, if_pos h]
    ring

/-- The guarded percentages of a list against its own positive sum add up
to exactly 100. -/
theorem sum_map_percentOf_self (l : List ℚ) (h : 0 < l.sum) :
    (l.map (percentOf l.sum)).sum = 100 := by
  rw [sum_map_percentOf l l.sum h, div_self (ne_of_gt h), one_mul]

/-- C1, counterexample: against a database whose only product has stock 1,
a request for quantity 2 of that product is accepted (201) — no
InsufficientStock failure exists — and the persisted stock is -1, so a
successful creation does drive stock below zero, contradicting the claim
that each line is checked for `product.stock >= quantity`. -/
theorem c1_counterexample :
    (invoicesPOST dbStock1 7 100 "INV-20250101-1234" reqQty2).2 = ApiResult.created ∧
    (invoicesPOST dbStock1 7 100 "INV-20250101-1234" reqQty2).1.products.map
      Product.stock = [-1] := by
  decide

/-- C1, amended: the invoice `POST` validates only that each line's
product exists; no stock-sufficiency check is performed, so whenever the
product of a (single-line, customer-less) request exists — regardless of
its current stock — the creation succeeds and the product's stock is
decremented by the requested quantity, possibly below zero. -/
theorem c1_existence_only_validation (db : DB) (u n : Nat) (s : String)
    (req : CreateInvoiceReq) (pid : Nat) (q : Int) (price itTot : ℚ)
    (itTaxRate itTax itDisc : Option ℚ) (p : Product)
    (hitems : req.items = [⟨pid, q, price, itTaxRate, itTax, itDisc, itTot⟩])
    (hcid : req.customerId = none)
    (hp : db.products.find? (fun x => x.id == pid) = some p) :
    (invoicesPOST db u n s req).2 = ApiResult.created ∧
    (invoicesPOST db u n s req).1.products.find? (fun x => x.id == pid) =
      some { p with stock := p.stock - q } := by
  constructor
  · rw [invoicesPOST_single_item hitems hcid hp]
  · rw [invoicesPOST_single_item hitems hcid hp]
    show (updateProductStock db.products pid (-q)).find? (fun x => x.id == pid) = _
    rw [updateProductStock_find?, hp]
    have hid : p.id = pid := by simpa using List.find?_some hp
    simp [hid, sub_eq_add_neg]

/-- C1, witness: product 1 exists with stock 0; a request for quantity 5
succeeds and leaves stock -5. -/
theorem c1_existence_only_validation_witness :
    (invoicesPOST dbStock0 7 100 "INV-1"
        ⟨none, 10, 0, none, 10, none, [⟨1, 5, 2, none, none, none, 10⟩]⟩).2 =
      ApiResult.created ∧
    (invoicesPOST dbStock0 7 100 "INV-1"
        ⟨none, 10, 0, none, 10, none, [⟨1, 5, 2, none, none, none, 10⟩]⟩).1.products.find?
      (fun x => x.id == 1) = some ⟨1, -5⟩ := by
  simpa using c1_existence_only_validation dbStock0 7 100 "INV-1"
    ⟨none, 10, 0, none, 10, none, [⟨1, 5, 2, none, none, none, 10⟩]⟩
    1 5 2 10 none none none ⟨1, 0⟩ rfl rfl (by decide)

/-- C2: an invoice-creation request with a line whose productId is absent
from the products table makes the transaction body throw, and the handler
answers with an error on an unchanged database: no product stock, invoice,
StockHistory, LoyaltyHistory or customer write survives. -/
theorem c2_atomic_rollback_missing_product (db : DB) (u n : Nat) (s : String)
    (req : CreateInvoiceReq)
    (h : ∃ it ∈ req.items, db.products.find? (fun p => p.id == it.productId) = none) :
    invoicesPOST db u n s req = (db, ApiResult.serverError) := by
  obtain ⟨e, he⟩ := invoiceItemsStep_error n req.items
    { db with invoices := db.invoices ++ [mkInvoice n s req] } (by simpa using h)
  have hne : req.items ≠ [] := by
    rcases h with ⟨it, hmem, _⟩
    intro hnil
    rw [hnil] at hmem
    cases hmem
  have hempty : req.items.isEmpty = false := by
    cases hi : req.items with
    | nil => exact absurd hi hne
    | cons a t => rfl
  have htx : createInvoiceTx db u n s req = Except.error e := by
    simp only [createInvoiceTx, he]
  simp [invoicesPOST, hempty, htx]

/-- C2, witness: the only product has id 1, the request references product
id 2; the handler returns an error and the database is exactly as before. -/
theorem c2_atomic_rollback_witness :
    invoicesPOST dbStock5 7 100 "INV-1" reqMissingProduct =
      (dbStock5, ApiResult.serverError) :=
  c2_atomic_rollback_missing_product dbStock5 7 100 "INV-1" reqMissingProduct
    ⟨⟨2, 1, 5, none, none, none, 5⟩, by decide⟩

/-- C3, counterexample: a creation whose client-submitted totalAmount is
999 while its own line data sums to 10 (tax 0, discount 0) is accepted and
persisted with totalAmount 999 — the stored totals are not recomputed
server-side and the balance equation fails far beyond rounding. -/
theorem c3_counterexample :
    (invoicesPOST dbStock5 7 100 "INV-1" reqTotalMismatch).2 = ApiResult.created ∧
    (invoicesPOST dbStock5 7 100 "INV-1" reqTotalMismatch).1.invoices.map
      Invoice.totalAmount = [999] ∧
    (invoicesPOST dbStock5 7 100 "INV-1" reqTotalMismatch).1.invoices.map
      (fun i => (i.items.map InvoiceItem.total).sum + i.taxAmount - i.discountAmount) =
      [10] ∧
    (999 : ℚ) ≠ 10 := by
  have hp : dbStock5.products.find? (fun x => x.id == 1) = some ⟨1, 5⟩ := by decide
  rw [invoicesPOST_single_item
    (show reqTotalMismatch.items = [⟨1, 1, 10, none, none, none, 10⟩] from rfl)
    (show reqTotalMismatch.customerId = none from rfl) hp]
  refine ⟨rfl, rfl, ?_, by norm_num⟩
  norm_num [dbStock5, emptyDB, mkInvoice, mkInvoiceItem, reqTotalMismatch]

/-- C3, amended: the handler stores subtotal, taxAmount, discountAmount
(defaulting to 0) and totalAmount verbatim from the client request — every
committed creation appends exactly `mkInvoice`, whose money fields are the
request's fields — so the balance equation holds only when the client
submits consistent values. -/
theorem c3_totals_stored_verbatim (db : DB) (u n : Nat) (s : String)
    (req : CreateInvoiceReq)
    (h : (invoicesPOST db u n s req).2 = ApiResult.created) :
    (invoicesPOST db u n s req).1.invoices = db.invoices ++ [mkInvoice n s req] ∧
    (mkInvoice n s req).subtotal = req.subtotal ∧
    (mkInvoice n s req).taxAmount = req.taxAmount ∧
    (mkInvoice n s req).discountAmount = req.discountAmount.getD 0 ∧
    (mkInvoice n s req).totalAmount = req.totalAmount := by
  obtain ⟨dbi, hstep, hdb2⟩ := createInvoiceTx_ok_parts (invoicesPOST_created h)
  refine ⟨?_, rfl, rfl, rfl, rfl⟩
  rw [hdb2]
  have hi := (invoiceItemsStep_ok_components n req.items _ _ hstep).1
  have hc := (invoiceCustomerStep_components dbi req.customerId req.totalAmount).1
  show (invoiceCustomerStep dbi req.customerId req.totalAmount).invoices = _
  rw [hc]
  simpa using hi

/-- C3, witness: the mismatched request of the counterexample commits, and
the stored invoice is verbatim `mkInvoice` of the request. -/
theorem c3_totals_stored_verbatim_witness :
    (invoicesPOST dbStock5 7 100 "INV-1" reqTotalMismatch).1.invoices =
      dbStock5.invoices ++ [mkInvoice 100 "INV-1" reqTotalMismatch] :=
  (c3_totals_stored_verbatim dbStock5 7 100 "INV-1" reqTotalMismatch (by decide)).1

/-- C9, counterexample: with product 1 at stock 1, two quantity-1 creation
requests executed one after the other (the most favourable serialization of
the claimed concurrent run) BOTH succeed and leave stock -1; it is not the
case that exactly one fails with InsufficientStock. -/
theorem c9_counterexample :
    (invoicesPOST dbStock1 7 100 "INV-A" (qty1Req 1)).2 = ApiResult.created ∧
    (invoicesPOST (invoicesPOST dbStock1 7 100 "INV-A" (qty1Req 1)).1
        7 101 "INV-B" (qty1Req 1)).2 = ApiResult.created ∧
    (invoicesPOST (invoicesPOST dbStock1 7 100 "INV-A" (qty1Req 1)).1
        7 101 "INV-B" (qty1Req 1)).1.products.map Product.stock = [-1] := by
  decide

/-- C9, amended: because the handler performs no stock-sufficiency check,
two quantity-1 creation requests against a product with any starting stock
both succeed even when run strictly one after the other, and the product's
stock drops by 2 (to -1 when it started at 1); no InsufficientStock
failure occurs under any serialization. -/
theorem c9_oversell_serial (db : DB) (u1 u2 n1 n2 : Nat) (s1 s2 : String)
    (pid : Nat) (stock0 : Int) (hdb : db.products = [⟨pid, stock0⟩]) :
    (invoicesPOST db u1 n1 s1 (qty1Req pid)).2 = ApiResult.created ∧
    (invoicesPOST (invoicesPOST db u1 n1 s1 (qty1Req pid)).1
        u2 n2 s2 (qty1Req pid)).2 = ApiResult.created ∧
    (invoicesPOST (invoicesPOST db u1 n1 s1 (qty1Req pid)).1
        u2 n2 s2 (qty1Req pid)).1.products = [⟨pid, stock0 - 2⟩] := by
  have hp1 : db.products.find? (fun x => x.id == pid) = some ⟨pid, stock0⟩ := by
    rw [hdb]
    simp
  have h1 := @invoicesPOST_single_item db u1 n1 s1 (qty1Req pid) pid 1 1 1
    none none none ⟨pid, stock0⟩ rfl rfl hp1
  have hprod1 : (invoicesPOST db u1 n1 s1 (qty1Req pid)).1.products =
      [⟨pid, stock0 + -1⟩] := by
    rw [h1]
    show updateProductStock db.products pid (-1) = _
    rw [hdb]
    simp [updateProductStock]
  have hp2 : (invoicesPOST db u1 n1 s1 (qty1Req pid)).1.products.find?
      (fun x => x.id == pid) = some ⟨pid, stock0 + -1⟩ := by
    rw [hprod1]
    simp
  have h2 := @invoicesPOST_single_item (invoicesPOST db u1 n1 s1 (qty1Req pid)).1
    u2 n2 s2 (qty1Req pid) pid 1 1 1 none none none ⟨pid, stock0 + -1⟩ rfl rfl hp2
  refine ⟨by rw [h1], by rw [h2], ?_⟩
  rw [h2]
  show updateProductStock (invoicesPOST db u1 n1 s1 (qty1Req pid)).1.products pid (-1) = _
  rw [hprod1]
  simp [updateProductStock]
  omega

/-- C9, witness: starting stock 1, both serial requests succeed and the
final stock is -1. -/
theorem c9_oversell_serial_witness :
    (invoicesPOST dbStock1 8 200 "INV-C" (qty1Req 1)).2 = ApiResult.created ∧
    (invoicesPOST (invoicesPOST dbStock1 8 200 "INV-C" (qty1Req 1)).1
        9 201 "INV-D" (qty1Req 1)).2 = ApiResult.created ∧
    (invoicesPOST (invoicesPOST dbStock1 8 200 "INV-C" (qty1Req 1)).1
        9 201 "INV-D" (qty1Req 1)).1.products = [⟨1, -1⟩] := by
  have h := c9_oversell_serial dbStock1 8 9 200 201 "INV-C" "INV-D" 1 1 rfl
  exact ⟨h.1, h.2.1, h.2.2.trans (by decide)⟩

/-- C4: voiding requires the invoice to exist, not be VOIDED and have no
ReturnOrder; when those hold the handler answers `voided`, every product's
stock grows by the total quantity its lines carry on the invoice, the
invoice's status becomes VOIDED, and a second void attempt on the result
fails with `alreadyVoided` changing nothing; when a ReturnOrder references
the invoice the handler answers `hasReturns` changing nothing. -/
theorem c4_void_contract (db : DB) (u iid : Nat) (inv : Invoice)
    (hfind : db.invoices.find? (fun i => i.id == iid) = some inv)
    (hst : ¬ inv.status = "VOIDED") :
    (db.returns.find? (fun r => r.invoiceId == iid) = none →
      ((invoicesDELETE db u iid).2 = VoidResult.voided ∧
       (∀ pid, (invoicesDELETE db u iid).1.products.find? (fun p => p.id == pid) =
         (db.products.find? (fun p => p.id == pid)).map
           (fun p => { p with stock := p.stock + invoicedQty pid inv.items })) ∧
       (invoicesDELETE db u iid).1.invoices.find? (fun i => i.id == iid) =
         some { inv with status := "VOIDED" } ∧
       invoicesDELETE (invoicesDELETE db u iid).1 u iid =
         ((invoicesDELETE db u iid).1, VoidResult.alreadyVoided))) ∧
    ((db.returns.find? (fun r => r.invoiceId == iid)).isSome = true →
      invoicesDELETE db u iid = (db, VoidResult.hasReturns)) := by
  constructor
  · intro hret
    have hretb : (db.returns.find? (fun r => r.invoiceId == iid)).isSome = false := by
      rw [hret]
      rfl
    have hres2 : (invoicesDELETE db u iid).2 = VoidResult.voided := by
      simp [invoicesDELETE, hfind, hst, hretb]
    have hPfinal : (invoicesDELETE db u iid).1.products =
        applyStockDeltas db.products inv.items := by
      simp [invoicesDELETE, hfind, hst, hretb, voidCustomerStep_products,
        restoreStockStep_products]
    have hIfinal : (invoicesDELETE db u iid).1.invoices =
        setInvoiceStatus db.invoices iid "VOIDED" := by
      simp [invoicesDELETE, hfind, hst, hretb, voidCustomerStep_invoices,
        restoreStockStep_invoices]
    have hinvid : inv.id = iid := by simpa using List.find?_some hfind
    have hIfind : (invoicesDELETE db u iid).1.invoices.find? (fun i => i.id == iid) =
        some { inv with status := "VOIDED" } := by
      rw [hIfinal, setInvoiceStatus_find?, hfind]
      simp [hinvid]
    refine ⟨hres2, ?_, hIfind, ?_⟩
    · intro pid
      rw [hPfinal, applyStockDeltas_find? pid inv.items db.products]
    · exact invoicesDELETE_alreadyVoided hIfind rfl
  · intro hret
    simp [invoicesDELETE, hfind, hst, hret]

/-- C4, witness: voiding the PAID invoice 1 (line: 2 of product 1, stock 5)
answers voided, raises stock to 7, marks the invoice VOIDED, and a second
attempt answers alreadyVoided without changes; voiding the same invoice in
a database where a ReturnOrder references it answers hasReturns without
changes. -/
theorem c4_void_contract_witness :
    (invoicesDELETE dbVoid 7 1).2 = VoidResult.voided ∧
    (invoicesDELETE dbVoid 7 1).1.products.find? (fun p => p.id == 1) =
      some ⟨1, 7⟩ ∧
    (invoicesDELETE dbVoid 7 1).1.invoices.find? (fun i => i.id == 1) =
      some { invPaid with status := "VOIDED" } ∧
    invoicesDELETE (invoicesDELETE dbVoid 7 1).1 7 1 =
      ((invoicesDELETE dbVoid 7 1).1, VoidResult.alreadyVoided) ∧
    invoicesDELETE dbVoidRet 7 1 = (dbVoidRet, VoidResult.hasReturns) := by
  have h := (c4_void_contract dbVoid 7 1 invPaid (by decide) (by decide)).1 (by decide)
  have hr := (c4_void_contract dbVoidRet 7 1 invPaid (by decide) (by decide)).2 (by decide)
  refine ⟨h.1, ?_, h.2.2.1, h.2.2.2, hr⟩
  have h2 := h.2.1 1
  rw [h2]
  decide

/-- C5, counterexample: customer 5 buys for a total of 5; creation raises
totalPurchases to 5 (0 loyalty points, floor(5/10) = 0); voiding that
invoice succeeds but — because the whole customer reversal is guarded by
`pointsEarned > 0` — leaves totalPurchases at 5 instead of decrementing it
by the invoice total to 0 as the claim requires for every totalAmount. -/
theorem c5_counterexample :
    (invoicesDELETE (invoicesPOST dbCust 7 1 "INV-1" reqCust5).1 7 1).2 =
      VoidResult.voided ∧
    (invoicesDELETE (invoicesPOST dbCust 7 1 "INV-1" reqCust5).1 7 1).1.customers =
      [⟨5, 0, 5⟩] := by
  have h0 : (⌊(5:ℚ)/10⌋ : Int) = 0 := by norm_num
  norm_num [invoicesPOST, createInvoiceTx, invoiceItemsStep, invoiceCustomerStep,
    invoicesDELETE, restoreStockStep, voidCustomerStep, setInvoiceStatus,
    updateProductStock, updateCustomer, mkInvoice, mkInvoiceItem, jsOrString,
    dbCust, emptyDB, reqCust5, h0]
  decide

/-- C5, amended: creation increments the attached customer's
totalPurchases by totalAmount and loyaltyPoints by floor(totalAmount/10)
for every total; voiding reverses exactly those amounts when
floor(totalAmount/10) > 0, but when floor(totalAmount/10) = 0 (totals
below 10) the void leaves the customer's loyaltyPoints AND totalPurchases
entirely unchanged. -/
theorem c5_loyalty_amended :
    (∀ (db : DB) (u n : Nat) (s : String) (req : CreateInvoiceReq) (cid : Nat)
       (c : Customer),
      req.customerId = some cid →
      db.customers.find? (fun x => x.id == cid) = some c →
      (invoicesPOST db u n s req).2 = ApiResult.created →
      (invoicesPOST db u n s req).1.customers.find? (fun x => x.id == cid) =
        some { c with totalPurchases := c.totalPurchases + req.totalAmount,
                      loyaltyPoints := c.loyaltyPoints + ⌊req.totalAmount / 10⌋ }) ∧
    (∀ (db : DB) (u iid : Nat) (inv : Invoice) (cid : Nat),
      db.invoices.find? (fun i => i.id == iid) = some inv →
      ¬ inv.status = "VOIDED" →
      db.returns.find? (fun r => r.invoiceId == iid) = none →
      inv.customerId = some cid →
      ((0 < (⌊inv.totalAmount / 10⌋ : Int) →
        (invoicesDELETE db u iid).1.customers.find? (fun x => x.id == cid) =
          (db.customers.find? (fun x => x.id == cid)).map
            (fun c => { c with totalPurchases := c.totalPurchases - inv.totalAmount,
                               loyaltyPoints := c.loyaltyPoints - ⌊inv.totalAmount / 10⌋ })) ∧
       ((⌊inv.totalAmount / 10⌋ : Int) ≤ 0 →
        (invoicesDELETE db u iid).1.customers = db.customers))) := by
  constructor
  · intro db u n s req cid c hcid hc hsucc
    obtain ⟨dbi, hstep, hdb2⟩ := createInvoiceTx_ok_parts (invoicesPOST_created hsucc)
    have hcust_i : dbi.customers = db.customers :=
      ((invoiceItemsStep_ok_components n req.items _ _ hstep).2.1).trans rfl
    have hcfound : dbi.customers.find? (fun x => x.id == cid) = some c := by
      rw [hcust_i]
      exact hc
    have hstepC : (invoiceCustomerStep dbi (some cid) req.totalAmount).customers =
        updateCustomer dbi.customers cid req.totalAmount ⌊req.totalAmount / 10⌋ :=
      invoiceCustomerStep_customers_found req.totalAmount hcfound
    have hcid2 : c.id = cid := by simpa using List.find?_some hc
    rw [hdb2]
    show (invoiceCustomerStep dbi req.customerId req.totalAmount).customers.find?
      (fun x => x.id == cid) = _
    rw [hcid, hstepC, updateCustomer_find?, hcfound]
    simp [hcid2]
  · intro db u iid inv cid hfind hst hret hcust
    have hretb : (db.returns.find? (fun r => r.invoiceId == iid)).isSome = false := by
      rw [hret]
      rfl
    constructor
    · intro hpts
      have hCfinal : (invoicesDELETE db u iid).1.customers =
          updateCustomer db.customers cid (-inv.totalAmount) (-⌊inv.totalAmount / 10⌋) := by
        simp [invoicesDELETE, hfind, hst, hretb, hcust, voidCustomerStep, hpts,
          restoreStockStep_customers]
      rw [hCfinal, updateCustomer_find?]
      cases hc : db.customers.find? (fun x => x.id == cid) with
      | none => rfl
      | some c =>
        have hcid2 : c.id = cid := by simpa using List.find?_some hc
        simp [hcid2, sub_eq_add_neg]
    · intro hpts
      have hnpts : ¬ 0 < (⌊inv.totalAmount / 10⌋ : Int) := not_lt.mpr hpts
      simp [invoicesDELETE, hfind, hst, hretb, hcust, voidCustomerStep, hnpts,
        restoreStockStep_customers]

/-- C5, witness: creating a 25-total invoice for customer 5 (0 points, 0
purchases) yields points 2 and purchases 25; voiding the stored 25-total
invoice of a customer holding ⟨5, 2, 25⟩ yields ⟨5, 0, 0⟩; voiding a
stored 5-total invoice leaves the customers table unchanged. -/
theorem c5_loyalty_amended_witness :
    (invoicesPOST dbCust 7 1 "INV-2" reqCust25).1.customers.find?
      (fun x => x.id == 5) = some ⟨5, 2, 25⟩ ∧
    (invoicesDELETE dbInvCust25 7 1).1.customers.find? (fun x => x.id == 5) =
      some ⟨5, 0, 0⟩ ∧
    (invoicesDELETE dbInvCust5 7 1).1.customers = dbInvCust5.customers := by
  refine ⟨?_, ?_, ?_⟩
  · have h := c5_loyalty_amended.1 dbCust 7 1 "INV-2" reqCust25 5 ⟨5, 0, 0⟩
      rfl (by decide) (by decide)
    rw [h]
    norm_num [reqCust25]
  · have h := (c5_loyalty_amended.2 dbInvCust25 7 1 invCust25 5 (by decide) (by decide)
      (by decide) rfl).1 (by norm_num [invCust25])
    rw [h]
    have hfc : dbInvCust25.customers.find? (fun x => x.id == 5) = some ⟨5, 2, 25⟩ := by
      decide
    rw [hfc]
    norm_num [invCust25]
  · exact (c5_loyalty_amended.2 dbInvCust5 7 1 invCust5 5 (by decide) (by decide)
      (by decide) rfl).2 (by norm_num [invCust5])

/-- C6: a return request against an existing invoice with some line whose
product is not on the invoice or whose quantity exceeds the invoiced
quantity is rejected with the validation loop's 400 message, and the
database — ReturnOrders, stock, invoice statuses, customers included — is
returned unchanged. -/
theorem c6_return_validation_rejects (db : DB) (u rid : Nat) (req : CreateReturnReq)
    (iid : Nat) (invoice : Invoice)
    (hiid : req.invoiceId = some iid)
    (hne : req.items.isEmpty = false)
    (hfind : db.invoices.find? (fun i => i.id == iid) = some invoice)
    (hbad : ∃ it ∈ req.items, lineInvalid invoice.items it = true) :
    (returnsPOST db u rid req).1 = db ∧
    (returnsPOST db u rid req).2 =
      ApiResult.badRequest ((validateReturnItems invoice.items req.items).getD "") := by
  obtain ⟨msg, hv⟩ := validateReturnItems_some invoice.items req.items hbad
  constructor
  · simp [returnsPOST, hiid, hne, hfind, hv]
  · simp [returnsPOST, hiid, hne, hfind, hv]

/-- C6, witness: returning quantity 3 of product 1 against invoice 1,
which invoiced quantity 2, is rejected and the database is unchanged. -/
theorem c6_return_validation_rejects_witness :
    (returnsPOST dbWithInvoice 7 1 retReqOver).1 = dbWithInvoice ∧
    (returnsPOST dbWithInvoice 7 1 retReqOver).2 =
      ApiResult.badRequest
        ((validateReturnItems invPaid.items retReqOver.items).getD "") :=
  c6_return_validation_rejects dbWithInvoice 7 1 retReqOver 1 invPaid rfl rfl
    (by decide) ⟨⟨1, 3, 5, 15⟩, by decide⟩

/-- C7: for a COMPLETED return that passes validation, covering every
invoice line at exactly the invoiced quantity sets the invoice's status to
REFUNDED, while leaving some line uncovered (missing or under the invoiced
quantity) leaves the stored invoice — its status included — unchanged. -/
theorem c7_refund_transition (db : DB) (u rid : Nat) (req : CreateReturnReq)
    (iid : Nat) (invoice : Invoice)
    (hiid : req.invoiceId = some iid)
    (hne : req.items.isEmpty = false)
    (hfind : db.invoices.find? (fun i => i.id == iid) = some invoice)
    (hval : validateReturnItems invoice.items req.items = none)
    (hstC : jsOrString req.status "COMPLETED" = "COMPLETED") :
    ((∀ invIt ∈ invoice.items, ∃ r,
        req.items.find? (fun x => x.productId == invIt.productId) = some r ∧
        r.quantity = invIt.quantity) →
      (returnsPOST db u rid req).1.invoices.find? (fun i => i.id == iid) =
        some { invoice with status := "REFUNDED" }) ∧
    ((∃ invIt ∈ invoice.items, lineFullyReturned req.items invIt = false) →
      (returnsPOST db u rid req).1.invoices.find? (fun i => i.id == iid) =
        some invoice) := by
  have hinvid : invoice.id = iid := by simpa using List.find?_some hfind
  constructor
  · intro hcov
    have hall : allItemsReturned invoice.items req.items = true := by
      have h2 : invoice.items.all (lineFullyReturned req.items) = true := by
        rw [List.all_eq_true]
        intro invIt hmem
        obtain ⟨r, hr, hq⟩ := hcov invIt hmem
        unfold lineFullyReturned
        rw [hr]
        simp [hq]
      exact h2
    have hIfinal : (returnsPOST db u rid req).1.invoices =
        setInvoiceStatus db.invoices iid "REFUNDED" := by
      simp [returnsPOST, hiid, hne, hfind, hval, hstC, hall,
        returnCustomerStep_invoices, returnStockStep_invoices]
    rw [hIfinal, setInvoiceStatus_find?, hfind]
    simp [hinvid]
  · intro hpart
    have hall : allItemsReturned invoice.items req.items = false := by
      cases hA : allItemsReturned invoice.items req.items with
      | false => rfl
      | true =>
        exfalso
        rcases hpart with ⟨invIt, hmem, hfl⟩
        have hA2 : invoice.items.all (lineFullyReturned req.items) = true := hA
        have h3 := List.all_eq_true.mp hA2 invIt hmem
        rw [hfl] at h3
        cases h3
    have hIfinal : (returnsPOST db u rid req).1.invoices = db.invoices := by
      simp [returnsPOST, hiid, hne, hfind, hval, hstC, hall,
        returnCustomerStep_invoices, returnStockStep_invoices]
    rw [hIfinal]
    exact hfind

/-- C7, witness: against invoice 1 (2 of product 1), the full return of
quantity 2 marks the invoice REFUNDED; the partial return of quantity 1
leaves it PAID. -/
theorem c7_refund_transition_witness :
    (returnsPOST dbWithInvoice 7 1 retReqFull).1.invoices.find? (fun i => i.id == 1) =
      some { invPaid with status := "REFUNDED" } ∧
    (returnsPOST dbWithInvoice 7 2 retReqPartial).1.invoices.find? (fun i => i.id == 1) =
      some invPaid := by
  constructor
  · refine (c7_refund_transition dbWithInvoice 7 1 retReqFull 1 invPaid rfl rfl
      (by decide) (by decide) rfl).1 ?_
    intro invIt hmem
    have he : invIt = ⟨1, 2, 5, 0, 0, 0, 10⟩ := by
      simpa [dbWithInvoice, invPaid] using hmem
    subst he
    exact ⟨⟨1, 2, 5, 10⟩, by decide, by decide⟩
  · exact (c7_refund_transition dbWithInvoice 7 2 retReqPartial 1 invPaid rfl rfl
      (by decide) (by decide) rfl).2 ⟨⟨1, 2, 5, 0, 0, 0, 10⟩, by decide⟩

/-- C10: a validated return whose status is not COMPLETED (for example
PENDING) writes only the ReturnOrder with its items and one activity-log
entry: products, StockHistory, invoices (status included), customers and
LoyaltyHistory are exactly as before. -/
theorem c10_pending_return_frame (db : DB) (u rid : Nat) (req : CreateReturnReq)
    (iid : Nat) (invoice : Invoice)
    (hiid : req.invoiceId = some iid)
    (hne : req.items.isEmpty = false)
    (hfind : db.invoices.find? (fun i => i.id == iid) = some invoice)
    (hval : validateReturnItems invoice.items req.items = none)
    (hst : ¬ jsOrString req.status "COMPLETED" = "COMPLETED") :
    (returnsPOST db u rid req).2 = ApiResult.created ∧
    (returnsPOST db u rid req).1.products = db.products ∧
    (returnsPOST db u rid req).1.stockHistory = db.stockHistory ∧
    (returnsPOST db u rid req).1.invoices = db.invoices ∧
    (returnsPOST db u rid req).1.customers = db.customers ∧
    (returnsPOST db u rid req).1.loyaltyHistory = db.loyaltyHistory ∧
    (returnsPOST db u rid req).1.returns =
      db.returns ++ [mkReturnOrder rid iid req (jsOrString req.status "COMPLETED")] ∧
    (returnsPOST db u rid req).1.activityLog =
      db.activityLog ++ [⟨u, "CREATE_RETURN"⟩] := by
  refine ⟨?_, ?_, ?_, ?_, ?_, ?_, ?_, ?_⟩ <;>
    simp [returnsPOST, hiid, hne, hfind, hval, hst]

/-- C10, witness: a PENDING one-unit return against invoice 1 is created,
appends exactly the ReturnOrder and the activity entry, and leaves every
other table unchanged. -/
theorem c10_pending_return_frame_witness :
    (returnsPOST dbWithInvoice 7 1 retReqPending).2 = ApiResult.created ∧
    (returnsPOST dbWithInvoice 7 1 retReqPending).1.products = dbWithInvoice.products ∧
    (returnsPOST dbWithInvoice 7 1 retReqPending).1.stockHistory =
      dbWithInvoice.stockHistory ∧
    (returnsPOST dbWithInvoice 7 1 retReqPending).1.invoices = dbWithInvoice.invoices ∧
    (returnsPOST dbWithInvoice 7 1 retReqPending).1.customers =
      dbWithInvoice.customers ∧
    (returnsPOST dbWithInvoice 7 1 retReqPending).1.loyaltyHistory =
      dbWithInvoice.loyaltyHistory ∧
    (returnsPOST dbWithInvoice 7 1 retReqPending).1.returns =
      dbWithInvoice.returns ++ [mkReturnOrder 1 1 retReqPending "PENDING"] ∧
    (returnsPOST dbWithInvoice 7 1 retReqPending).1.activityLog =
      dbWithInvoice.activityLog ++ [⟨7, "CREATE_RETURN"⟩] := by
  simpa using c10_pending_return_frame dbWithInvoice 7 1 retReqPending 1 invPaid
    rfl rfl (by decide) (by decide) (by decide)

/-- A guarded percentage against a zero total is zero. -/
theorem percentOf_eq_zero (T v : ℚ) (h : T = 0) : percentOf T v = 0 := by
  simp [percentOf, h]

/-- C8: in both the sales-by-category and sales-by-payment-method reports,
each row's percentage is the guarded `total > 0 ? group/total*100 : 0`;
when the overall total is positive the percentages over all groups sum to
exactly 100 (exact in ℚ; the code's floats add only rounding), and when
the overall total is 0 every row's percentage is 0 and no division is
performed. -/
theorem c8_report_percentages (crows : List CategoryRow) (prows : List PaymentRow) :
    (0 < (getSalesByCategory crows).2 →
      ((getSalesByCategory crows).1.map CategoryEntry.percentage).sum = 100) ∧
    ((getSalesByCategory crows).2 = 0 →
      ∀ e ∈ (getSalesByCategory crows).1, e.percentage = 0) ∧
    (0 < (getSalesByPaymentMethod prows).2 →
      ((getSalesByPaymentMethod prows).1.map PaymentEntry.percentage).sum = 100) ∧
    ((getSalesByPaymentMethod prows).2 = 0 →
      ∀ e ∈ (getSalesByPaymentMethod prows).1, e.percentage = 0) := by
  refine ⟨?_, ?_, ?_, ?_⟩
  · intro h
    have h2 : ((getSalesByCategory crows).1.map CategoryEntry.percentage) =
        ((((groupCategorySales crows).insertionSort fun a b => b.total ≤ a.total).map
          CategoryGroup.total).map (percentOf (getSalesByCategory crows).2)) := by
      simp [getSalesByCategory, List.map_map, Function.comp]
    rw [h2]
    exact sum_map_percentOf_self _ h
  · intro h e he
    simp only [getSalesByCategory, List.mem_map] at he
    obtain ⟨g, hg, he2⟩ := he
    rw [← he2]
    exact percentOf_eq_zero _ _ h
  · intro h
    have h2 : ((getSalesByPaymentMethod prows).1.map PaymentEntry.percentage) =
        ((((prows.foldl addPaymentRow []).insertionSort fun a b => b.total ≤ a.total).map
          PaymentGroup.total).map (percentOf (getSalesByPaymentMethod prows).2)) := by
      simp [getSalesByPaymentMethod, List.map_map, Function.comp]
    rw [h2]
    exact sum_map_percentOf_self _ h
  · intro h e he
    simp only [getSalesByPaymentMethod, List.mem_map] at he
    obtain ⟨g, hg, he2⟩ := he
    rw [← he2]
    exact percentOf_eq_zero _ _ h

/-- C8, witness: a single category row of total 10 and a single CASH
invoice of total 10; in both reports the percentages sum to 100. -/
theorem c8_report_percentages_witness :
    ((getSalesByCategory [⟨some "c1", some "Drinks", 10⟩]).1.map
      CategoryEntry.percentage).sum = 100 ∧
    ((getSalesByPaymentMethod [⟨"CASH", 10⟩]).1.map
      PaymentEntry.percentage).sum = 100 := by
  constructor
  · exact (c8_report_percentages [⟨some "c1", some "Drinks", 10⟩] []).1
      (by norm_num [getSalesByCategory, groupCategorySales, addCategoryRow,
        List.insertionSort, List.orderedInsert])
  · exact (c8_report_percentages [] [⟨"CASH", 10⟩]).2.2.1
      (by norm_num [getSalesByPaymentMethod, addPaymentRow,
        List.insertionSort, List.orderedInsert])

end RetailBilling
